import Mathlib

/-!
Verification development for the stroke-shield repository.

Shallow embedding of:
- the Gemini speech-analysis adapter (`analyzeSpeech` and `extractValuesWithRegex`);
- the recording-session retry logic of the public speech-recognition script;
- the recognition `onresult` transcript-update rule;
- the risk fusion calculation of the StrokeAssessment component;
- the express handlers for `POST /api/assessments` and `GET /api/assessments/recent`.

Modelling conventions: JavaScript runtime values that flow through the code are
modelled by `JSValue` (with JS truthiness); an absent object property or an
`undefined` variable is `Option.none`; machine floats are modelled as exact
rationals; `JSON.parse` is a language built-in external to the repository and is
passed to the adapter as an explicit parse oracle; the JS regular expressions of
the regex fallback tier are implemented directly as leftmost-match scanners over
character lists; `\s` is modelled by `Char.isWhitespace` and the JS `.`
metacharacter excludes the line terminators LF and CR.
-/

/-- A JavaScript runtime value as it flows through this code base: null,
booleans, (exact rational) numbers, NaN, or strings. -/
inductive JSValue where
  | null : JSValue
  | nan : JSValue
  | bool : Bool → JSValue
  | num : ℚ → JSValue
  | str : String → JSValue
deriving DecidableEq

/-- JS truthiness of a value: `false`, `0`, `NaN`, `null` and `""` are falsy. -/
def JSValue.truthy : JSValue → Bool
  | JSValue.null => false
  | JSValue.nan => false
  | JSValue.bool b => b
  | JSValue.num q => q != 0
  | JSValue.str s => s != ""

/-- The JS expression `v || d` for a possibly-absent property `v`: the value
itself when present and truthy, otherwise the default `d`. -/
def jsOr (v : Option JSValue) (d : JSValue) : JSValue :=
  match v with
  | some x => if x.truthy then x else d
  | none => d

/-- Truthiness of a possibly-undefined variable (absent = undefined = falsy). -/
def jsTruthyOpt : Option JSValue → Bool
  | none => false
  | some v => v.truthy

/-- The record shape returned by the Gemini adapter `analyzeSpeech`
(geminiService, src/unnamed/part_000): all seven fields always populated. -/
structure SpeechMetricsJS where
  slurredSpeech : JSValue
  speechCoherence : JSValue
  possibleStrokeIndicators : JSValue
  confidence : JSValue
  clarity : JSValue
  fluency : JSValue
  analysis : JSValue
deriving DecidableEq

/-- The result of `JSON.parse` on the brace-delimited substring, viewed at the
seven keys the adapter reads; `none` means the key is absent. -/
structure ParsedObj where
  slurredSpeech : Option JSValue
  speechCoherence : Option JSValue
  possibleStrokeIndicators : Option JSValue
  confidence : Option JSValue
  clarity : Option JSValue
  fluency : Option JSValue
  analysis : Option JSValue
deriving DecidableEq

/-- Strict-tier formatting of a parsed JSON object (part_000 lines 83-91):
each field is `parsedResult.key || default`. -/
def formatParsedResult (parsedResult : ParsedObj) : SpeechMetricsJS :=
  { slurredSpeech := jsOr parsedResult.slurredSpeech (JSValue.bool false)
    speechCoherence := jsOr parsedResult.speechCoherence (JSValue.num 0.8)
    possibleStrokeIndicators := jsOr parsedResult.possibleStrokeIndicators (JSValue.bool false)
    confidence := jsOr parsedResult.confidence (JSValue.num 50)
    clarity := jsOr parsedResult.clarity (JSValue.num 80)
    fluency := jsOr parsedResult.fluency (JSValue.num 80)
    analysis := jsOr parsedResult.analysis (JSValue.str "Speech analysis completed.") }

/-- The fixed neutral record returned for an empty/whitespace transcription
(part_000 lines 26-34). -/
def noSpeechResult : SpeechMetricsJS :=
  { slurredSpeech := JSValue.bool false
    speechCoherence := JSValue.num 1
    possibleStrokeIndicators := JSValue.bool false
    confidence := JSValue.num 0
    clarity := JSValue.num 100
    fluency := JSValue.num 100
    analysis := JSValue.str "No speech detected to analyze." }

/-- The hard-failure record returned when the Gemini call throws
(part_000 lines 103-111). -/
def geminiErrorResult : SpeechMetricsJS :=
  { slurredSpeech := JSValue.bool false
    speechCoherence := JSValue.num 0.8
    possibleStrokeIndicators := JSValue.bool false
    confidence := JSValue.num 50
    clarity := JSValue.num 80
    fluency := JSValue.num 80
    analysis := JSValue.str "Unable to analyze speech due to a technical error. Please try again or consult a medical professional if you have concerns." }

/-- JS `String.prototype.trim` on a character list: strip leading and trailing
whitespace. -/
def trimList (cs : List Char) : List Char :=
  (((cs.dropWhile Char.isWhitespace).reverse).dropWhile Char.isWhitespace).reverse

/-- JS `String.prototype.indexOf` for a single character (as `Option Nat`,
`none` standing for -1). -/
def firstIndexOfAux (c : Char) : List Char → Option Nat
  | [] => none
  | d :: ds => if d == c then some 0 else (firstIndexOfAux c ds).map (· + 1)

/-- JS `String.prototype.lastIndexOf` for a single character. -/
def lastIndexOfAux (c : Char) (cs : List Char) : Option Nat :=
  (firstIndexOfAux c cs.reverse).map (fun k => cs.length - 1 - k)

/-- JS `String.prototype.substring`: indices are clamped to the length and
swapped when out of order; extracts the half-open slice. -/
def jsSubstring (cs : List Char) (a b : Nat) : List Char :=
  let len := cs.length
  let a2 := min a len
  let b2 := min b len
  let lo := min a2 b2
  let hi := max a2 b2
  (cs.drop lo).take (hi - lo)

/-- Case-insensitive character equality (the `i` regex flag). -/
def ciEqChar (a b : Char) : Bool := a.toLower == b.toLower

/-- Match a literal key case-insensitively at the head of the text, returning
the remainder on success. -/
def matchKeyCI : List Char → List Char → Option (List Char)
  | [], cs => some cs
  | _ :: _, [] => none
  | k :: ks, c :: cs => if ciEqChar k c then matchKeyCI ks cs else none

/-- The character class `["\s:]` of the fallback extraction patterns. -/
def isSepChar (c : Char) : Bool := c == '"' || c.isWhitespace || c == ':'

/-- Try pattern `KEY["\s:]+(<capClass>+)` anchored at the current position;
the separator and capture classes are disjoint, so greedy matching needs no
backtracking here. -/
def tryKeyValueAt (key : List Char) (capClass : Char → Bool) (cs : List Char) :
    Option (List Char) :=
  match matchKeyCI key cs with
  | none => none
  | some rest =>
      let sepRun := rest.takeWhile isSepChar
      if sepRun.isEmpty then none
      else
        let cap := (rest.dropWhile isSepChar).takeWhile capClass
        if cap.isEmpty then none else some cap

/-- `RegExp.prototype.exec` for `KEY["\s:]+(<capClass>+)` with the `i` flag:
return the first capture of the leftmost match. -/
def execKeyValue (key : List Char) (capClass : Char → Bool) : List Char → Option (List Char)
  | [] => none
  | c :: cs =>
      match tryKeyValueAt key capClass (c :: cs) with
      | some cap => some cap
      | none => execKeyValue key capClass cs

/-- A JS regex quote class `["']`. -/
def isQuoteChar (c : Char) : Bool := c == '"' || c == Char.ofNat 39

/-- Line terminators excluded by the JS `.` metacharacter (LF and CR). -/
def isLineTerm (c : Char) : Bool := c == Char.ofNat 10 || c == Char.ofNat 13

/-- Lazy `(.+?)` up to a closing quote: extend the capture one character at a
time, stopping at the first quote; fail on a line terminator or end of input. -/
def lazyDotCapture (acc : List Char) : List Char → Option (List Char)
  | [] => none
  | d :: ds =>
      if isQuoteChar d then some acc
      else if isLineTerm d then none
      else lazyDotCapture (acc ++ [d]) ds

/-- After an opening quote, capture at least one non-terminator character up to
the first closing quote. -/
def tryQuotedCapture : List Char → Option (List Char)
  | [] => none
  | c :: cs => if isLineTerm c then none else lazyDotCapture [c] cs

/-- Backtracking over the greedy `["\s:]+` run of the analysis pattern: try
consuming `n` separator characters, longest first, then expect `["'](.+?)["']`. -/
def tryAnalysisSepSplit (cs : List Char) : Nat → Option (List Char)
  | 0 => none
  | n + 1 =>
      (match cs.drop (n + 1) with
       | q :: rest => if isQuoteChar q then tryQuotedCapture rest else none
       | [] => none).orElse (fun _ => tryAnalysisSepSplit cs n)

/-- Try pattern `analysis["\s:]+["'](.+?)["']` anchored at the current position. -/
def tryAnalysisAt (key : List Char) (cs : List Char) : Option (List Char) :=
  match matchKeyCI key cs with
  | none => none
  | some rest => tryAnalysisSepSplit rest (rest.takeWhile isSepChar).length

/-- Leftmost match of the quoted analysis pattern over the whole text. -/
def execAnalysis (key : List Char) : List Char → Option (List Char)
  | [] => none
  | c :: cs => (tryAnalysisAt key (c :: cs)).orElse (fun _ => execAnalysis key cs)

/-- JS `parseFloat` restricted to captures from `[0-9.]+`: digits, an optional
dot and further digits; `none` models NaN (no digit before the parse stops). -/
def parseFloatJS (cs : List Char) : Option ℚ :=
  let intPart := cs.takeWhile Char.isDigit
  let intVal : ℚ := (intPart.foldl (fun a c => a * 10 + (c.toNat - 48)) 0 : ℕ)
  match cs.dropWhile Char.isDigit with
  | c :: rest =>
      if c == Char.ofNat 46 then
        let fracPart := rest.takeWhile Char.isDigit
        if intPart.isEmpty && fracPart.isEmpty then none
        else
          some (intVal +
            ((fracPart.foldl (fun a c2 => a * 10 + (c2.toNat - 48)) 0 : ℕ) : ℚ) /
              ((10 : ℚ) ^ fracPart.length))
      else if intPart.isEmpty then none else some intVal
  | [] => if intPart.isEmpty then none else some intVal

/-- The numeric capture class `[0-9.]`. -/
def isNumCapChar (c : Char) : Bool := c.isDigit || c == Char.ofNat 46

/-- Fallback extraction `extractValuesWithRegex` (part_000 lines 118-167):
start from the documented defaults and overwrite each field independently when
its loose key-value pattern matches. -/
def extractValuesWithRegex (cs : List Char) : SpeechMetricsJS :=
  let r0 : SpeechMetricsJS :=
    { slurredSpeech := JSValue.bool false
      speechCoherence := JSValue.num 0.8
      possibleStrokeIndicators := JSValue.bool false
      confidence := JSValue.num 50
      clarity := JSValue.num 80
      fluency := JSValue.num 80
      analysis := JSValue.str "Analysis extracted from partial data. Please consult a medical professional for accurate assessment." }
  let r1 := match execKeyValue "slurredSpeech".toList Char.isAlpha cs with
    | some cap => { r0 with slurredSpeech := JSValue.bool (String.mk (cap.map Char.toLower) == "true") }
    | none => r0
  let r2 := match execKeyValue "speechCoherence".toList isNumCapChar cs with
    | some cap =>
        { r1 with speechCoherence := match parseFloatJS cap with
            | some q => JSValue.num q
            | none => JSValue.nan }
    | none => r1
  let r3 := match execKeyValue "clarity".toList isNumCapChar cs with
    | some cap =>
        { r2 with clarity := match parseFloatJS cap with
            | some q => JSValue.num q
            | none => JSValue.nan }
    | none => r2
  let r4 := match execKeyValue "fluency".toList isNumCapChar cs with
    | some cap =>
        { r3 with fluency := match parseFloatJS cap with
            | some q => JSValue.num q
            | none => JSValue.nan }
    | none => r3
  let r5 := match execKeyValue "possibleStrokeIndicators".toList Char.isAlpha cs with
    | some cap => { r4 with possibleStrokeIndicators := JSValue.bool (String.mk (cap.map Char.toLower) == "true") }
    | none => r4
  let r6 := match execKeyValue "confidence".toList isNumCapChar cs with
    | some cap =>
        { r5 with confidence := match parseFloatJS cap with
            | some q => JSValue.num q
            | none => JSValue.nan }
    | none => r5
  match execAnalysis "analysis".toList cs with
  | some cap => { r6 with analysis := JSValue.str (String.mk cap) }
  | none => r6

/-- Facial metrics context embedded into the Gemini prompt (does not influence
the returned record). -/
structure FacialCtx where
  eyeRatio : ℚ
  mouthCornerRatio : ℚ
  overallAsymmetry : ℚ
deriving DecidableEq

/-- Outcome of the outbound Gemini call: either the whole
`generateContent`/`response.text()` chain throws, or it yields raw text. -/
inductive ServiceOutcome where
  | throws : ServiceOutcome
  | returns : String → ServiceOutcome

/-- The adapter `analyzeSpeech` (part_000 lines 22-113). `jsonParse` is the
`JSON.parse` oracle: `none` models a parse exception, caught by the inner
try/catch which falls back to regex extraction. -/
def analyzeSpeech (transcription : String) (facialMetrics : Option FacialCtx)
    (svc : ServiceOutcome) (jsonParse : List Char → Option ParsedObj) : SpeechMetricsJS :=
  if transcription.toList = [] ∨ trimList transcription.toList = [] then
    noSpeechResult
  else
    match svc with
    | ServiceOutcome.throws => geminiErrorResult
    | ServiceOutcome.returns text =>
        let cs := text.toList
        match firstIndexOfAux (Char.ofNat 123) cs, lastIndexOfAux (Char.ofNat 125) cs with
        | some jsonStart, some jsonEnd =>
            match jsonParse (jsSubstring cs jsonStart (jsonEnd + 1)) with
            | some parsedResult => formatParsedResult parsedResult
            | none => extractValuesWithRegex cs
        | some _, none => extractValuesWithRegex cs
        | none, some _ => extractValuesWithRegex cs
        | none, none => extractValuesWithRegex cs

/-- Response shape of the analyze-speech endpoint. -/
structure AnalyzeSpeechResponse where
  status : Nat
  analysis : SpeechMetricsJS

/-- Modelled from the spec: the `POST /analyze-speech` route handler is not
present under src/ (only its client-side callers are); per §6 it takes a body
`{transcript, facialMetrics?}`, forwards it to the adapter and answers
`200 {analysis: SpeechMetrics}`, relying on the adapter total-fallback contract
of §4.2. -/
def analyzeSpeechRoute (transcript : String) (facialMetrics : Option FacialCtx)
    (svc : ServiceOutcome) (jsonParse : List Char → Option ParsedObj) : AnalyzeSpeechResponse :=
  { status := 200, analysis := analyzeSpeech transcript facialMetrics svc jsonParse }

/-- Phases of the recording session visible in the speech-recognition script
(src/server/public/speech-recognition.js): `recording` after `onstart`;
`retryWait` while a restart of recognition is scheduled after a network error;
`failed` when the scheduled restart itself threw (buttons reset, no manual
entry); `errored` in the give-up branch that installs the manual-entry UI. -/
inductive RecPhase where
  | recording : RecPhase
  | retryWait : RecPhase
  | failed : RecPhase
  | errored : RecPhase
deriving DecidableEq

/-- `MAX_RECOGNITION_ATTEMPTS` (line 46). -/
def MAX_RECOGNITION_ATTEMPTS : Nat := 3

/-- The mutable session variables of the script relevant to retry handling:
the phase, `recognitionAttempts`, and whether the manual-entry fallback UI has
been installed. -/
structure SessionState where
  phase : RecPhase
  recognitionAttempts : Nat
  manualEntryShown : Bool
deriving DecidableEq

/-- Events delivered to the session: `onstart` fired (successful (re)start), a
`network`-class `onerror`, any other `onerror`, or the `recognition.start()`
call inside the retry timeout throwing. -/
inductive RecEvent where
  | startOk : RecEvent
  | networkError : RecEvent
  | otherError : RecEvent
  | restartThrew : RecEvent
deriving DecidableEq

/-- Side effects requested by a transition: scheduling a recognition restart
after a delay in milliseconds (`setTimeout(..., 1000)`), or installing the
manual-entry fallback UI. -/
inductive SessionEffect where
  | scheduleRestart : Nat → SessionEffect
  | showManualEntry : SessionEffect
deriving DecidableEq

/-- One step of the session handlers (lines 58-65 and 98-170): `onstart` resets
`recognitionAttempts` to 0; a network error with `recognitionAttempts <
MAX_RECOGNITION_ATTEMPTS` increments the counter and schedules a restart after
a fixed 1000 ms delay; otherwise (a non-network error, or a network error with
the counter exhausted) the handler gives up and installs the manual-entry UI;
a throwing restart only resets the buttons. DOM/UI text updates are elided. -/
def sessionStep (s : SessionState) : RecEvent → SessionState × List SessionEffect
  | RecEvent.startOk =>
      ({ phase := RecPhase.recording, recognitionAttempts := 0,
         manualEntryShown := s.manualEntryShown }, [])
  | RecEvent.networkError =>
      if s.recognitionAttempts < MAX_RECOGNITION_ATTEMPTS then
        ({ s with phase := RecPhase.retryWait,
                  recognitionAttempts := s.recognitionAttempts + 1 },
         [SessionEffect.scheduleRestart 1000])
      else
        ({ s with phase := RecPhase.errored, manualEntryShown := true },
         [SessionEffect.showManualEntry])
  | RecEvent.otherError =>
      ({ s with phase := RecPhase.errored, manualEntryShown := true },
       [SessionEffect.showManualEntry])
  | RecEvent.restartThrew =>
      ({ s with phase := RecPhase.failed }, [])

/-- Run a sequence of events, discarding effects. -/
def runSession (s : SessionState) : List RecEvent → SessionState
  | [] => s
  | e :: es => runSession (sessionStep s e).1 es

/-- The state right after a successful `onstart`: recording, zero attempts, no
manual-entry UI. -/
def initialRecordingState : SessionState :=
  { phase := RecPhase.recording, recognitionAttempts := 0, manualEntryShown := false }

/-- One entry of `event.results[i][0]` as read by the `onresult` handler. -/
structure RecResult where
  isFinal : Bool
  transcriptText : String
deriving DecidableEq

/-- JS `a || b` on strings. -/
def jsOrString (a b : String) : String := if a == "" then b else a

/-- The concatenated final texts of one `onresult` event (the loop accumulating
`finalTranscript`). -/
def finalJoin (results : List RecResult) : String :=
  String.join ((results.filter (fun r => r.isFinal)).map (fun r => r.transcriptText))

/-- The concatenated interim texts of one `onresult` event. -/
def interimJoin (results : List RecResult) : String :=
  String.join ((results.filter (fun r => !r.isFinal)).map (fun r => r.transcriptText))

/-- The value assigned by one `onresult` callback (lines 82-96):
`transcript = finalTranscript || interimTranscript`. -/
def onresultTranscript (results : List RecResult) : String :=
  jsOrString (finalJoin results) (interimJoin results)

/-- The `onresult` handler as a state update: the previous transcript is
overwritten, never appended to. -/
def applyOnresult (transcript : String) (results : List RecResult) : String :=
  onresultTranscript results

/-- Transcript after a session delivers a sequence of `onresult` events
(transcript reset to "" on `startRecording`). -/
def transcriptAfter (events : List (List RecResult)) : String :=
  events.foldl applyOnresult ""

/-- Follows the claim/spec words for §4.3 transcript aggregation: a callback
carrying a final result replaces the transcript with the finalized text; a
callback carrying only interim results replaces it with the interim text only
if no final result has yet arrived in this session. -/
def claimPolicyStep (st : String × Bool) (results : List RecResult) : String × Bool :=
  if results.any (fun r => r.isFinal) then (finalJoin results, true)
  else if st.2 then st
  else (interimJoin results, false)

/-- Follows the claim/spec words: the transcript predicted by the
latest-final-wins-else-latest-interim policy. -/
def claimPolicyTranscript (events : List (List RecResult)) : String :=
  (events.foldl claimPolicyStep ("", false)).1

/-- Three-level risk classification of the StrokeAssessment component. -/
inductive RiskLevel where
  | low : RiskLevel
  | medium : RiskLevel
  | high : RiskLevel
deriving DecidableEq

/-- The `facialAsymmetry` prop as read by `calculateOverallRisk`. -/
structure FacialAsymmetryProps where
  overallAsymmetry : ℚ
deriving DecidableEq

/-- The `postureAnalysis` prop as read by `calculateOverallRisk`. -/
structure PostureAnalysisProps where
  shoulderImbalance : ℚ
  armDrop : ℚ
deriving DecidableEq

/-- The `speechAnalysis` prop as read by `calculateOverallRisk`; `clarity` and
`fluency` are `none` when `undefined`. -/
structure SpeechAnalysisProps where
  slurredSpeech : Bool
  clarity : Option ℚ
  fluency : Option ℚ
deriving DecidableEq

/-- JS `Math.min` on two numbers. -/
def mathMin (a b : ℚ) : ℚ := if a ≤ b then a else b

/-- JS `Math.max` on two numbers. -/
def mathMax (a b : ℚ) : ℚ := if a ≤ b then b else a

/-- The risk-level assignment of `calculateOverallRisk` (part_003 lines 42-48):
start at low, high when the clamped score exceeds 0.7, else medium when it
exceeds 0.3. -/
def riskLevelOfScore (s : ℚ) : RiskLevel :=
  if s > 0.7 then RiskLevel.high
  else if s > 0.3 then RiskLevel.medium
  else RiskLevel.low

/-- `calculateOverallRisk` (part_003 lines 14-53): the clamped fusion score and
its level. `overallScore` starts at `facialAsymmetry.overallAsymmetry || 0`;
posture contributes `shoulderImbalance * 0.3` behind a truthiness guard; a
present speech analysis contributes 0.3 for slurred speech and
`(100 - x) / 100 * 0.15` for each of clarity and fluency when defined; the sum
is clamped to [0, 1]. -/
def calculateOverallRisk (facialAsymmetry : FacialAsymmetryProps)
    (postureAnalysis : Option PostureAnalysisProps)
    (speechAnalysis : Option SpeechAnalysisProps) : ℚ × RiskLevel :=
  let s0 : ℚ :=
    if facialAsymmetry.overallAsymmetry != 0 then facialAsymmetry.overallAsymmetry else 0
  let s1 : ℚ :=
    match postureAnalysis with
    | some p => if p.shoulderImbalance != 0 then s0 + p.shoulderImbalance * 0.3 else s0
    | none => s0
  let s2 : ℚ :=
    match speechAnalysis with
    | some sp =>
        let a := if sp.slurredSpeech then s1 + 0.3 else s1
        let b := match sp.clarity with
          | some c => a + (100 - c) / 100 * 0.15
          | none => a
        match sp.fluency with
        | some f => b + (100 - f) / 100 * 0.15
        | none => b
    | none => s1
  let overallScore := mathMin (mathMax s2 0) 1
  (overallScore, riskLevelOfScore overallScore)

/-- Request body of `POST /api/assessments` at the four destructured fields;
`none` models an absent property. -/
structure AssessmentBody where
  asymmetryMetrics : Option JSValue
  postureMetrics : Option JSValue
  riskLevel : Option JSValue
  timestamp : Option JSValue
deriving DecidableEq

/-- A stored assessment record (src/server/index.js lines 36-42). -/
structure AssessmentRec where
  id : String
  asymmetryMetrics : Option JSValue
  postureMetrics : Option JSValue
  riskLevel : Option JSValue
  timestamp : JSValue
deriving DecidableEq

/-- Outcome of the `POST /api/assessments` handler. -/
inductive PostResult where
  | badRequest : String → PostResult
  | created : String → String → PostResult
deriving DecidableEq

/-- HTTP status of a handler outcome. -/
def statusOf : PostResult → Nat
  | PostResult.badRequest _ => 400
  | PostResult.created _ _ => 201

/-- The `POST /api/assessments` handler (index.js lines 27-51): reject with
400 when any of the first three destructured fields is falsy; otherwise store
`{id, ..., timestamp: timestamp || new Date().toISOString()}` with
`id = Date.now().toString()` and answer 201. `nowMs` models `Date.now()` and
`nowISO` models `new Date().toISOString()`. -/
def postAssessments (db : List AssessmentRec) (body : AssessmentBody)
    (nowMs : Nat) (nowISO : String) : PostResult × List AssessmentRec :=
  if !jsTruthyOpt body.asymmetryMetrics || !jsTruthyOpt body.postureMetrics ||
      !jsTruthyOpt body.riskLevel then
    (PostResult.badRequest "Missing required data", db)
  else
    let id := Nat.repr nowMs
    let assessment : AssessmentRec :=
      { id := id
        asymmetryMetrics := body.asymmetryMetrics
        postureMetrics := body.postureMetrics
        riskLevel := body.riskLevel
        timestamp := jsOr body.timestamp (JSValue.str nowISO) }
    (PostResult.created id "Assessment saved successfully", db ++ [assessment])

/-- Stable insertion (descending by key) matching the ES2019 stable
`Array.prototype.sort` with comparator `(a, b) => dateB - dateA`: an element is
placed before the first element whose key is not larger. -/
def insertByKeyDesc {α : Type} (key : α → ℚ) (x : α) : List α → List α
  | [] => [x]
  | y :: ys => if key y ≤ key x then x :: y :: ys else y :: insertByKeyDesc key x ys

/-- Stable sort, descending by key. -/
def sortByKeyDesc {α : Type} (key : α → ℚ) : List α → List α
  | [] => []
  | x :: xs => insertByKeyDesc key x (sortByKeyDesc key xs)

/-- The `GET /api/assessments/recent` handler (index.js lines 54-66): copy the
store, sort by timestamp descending, take the first 10. `dateVal` models the
numeric value of `new Date(r.timestamp)`. -/
def getRecentAssessments (db : List AssessmentRec) (dateVal : JSValue → ℚ) :
    List AssessmentRec :=
  (sortByKeyDesc (fun a => dateVal a.timestamp) db).take 10

/-- Does the text start with the given pattern (case-sensitive)? -/
def startsWithList : List Char → List Char → Bool
  | [], _ => true
  | _ :: _, [] => false
  | p :: ps, c :: cs => p == c && startsWithList ps cs

/-- Does the pattern occur anywhere in the text? -/
def hasSubList (pat : List Char) : List Char → Bool
  | [] => pat.isEmpty
  | c :: cs => startsWithList pat (c :: cs) || hasSubList pat cs

/-- Parsed object of the strict-tier counterexample: the key `clarity` is
present with the (falsy) value 0. -/
def strictCexObj : ParsedObj :=
  { slurredSpeech := none, speechCoherence := none, possibleStrokeIndicators := none,
    confidence := none, clarity := some (JSValue.num 0), fluency := none, analysis := none }

/-- Raw service text of the strict-tier counterexample. -/
def strictCexText : String := "The result is \x7b\"clarity\": 0\x7d thanks"

/-- The brace-delimited substring of `strictCexText`. -/
def strictCexSub : String := "\x7b\"clarity\": 0\x7d"

/-- Parse oracle of the counterexample, modelling what `JSON.parse` does on the
brace-delimited substring. -/
def strictCexParse : List Char → Option ParsedObj :=
  fun cs => if cs = strictCexSub.toList then some strictCexObj else none

/-- Parsed object of the spec's worked strict-tier example. -/
def specExampleObj : ParsedObj :=
  { slurredSpeech := some (JSValue.bool true), speechCoherence := none,
    possibleStrokeIndicators := some (JSValue.bool true),
    confidence := some (JSValue.num 70), clarity := some (JSValue.num 55),
    fluency := some (JSValue.num 60), analysis := some (JSValue.str "x") }

/-- Raw service text of the spec's worked strict-tier example. -/
def specExampleText : String :=
  "Here is the result: \x7b\"slurredSpeech\":true,\"clarity\":55,\"fluency\":60,\"confidence\":70,\"possibleStrokeIndicators\":true,\"analysis\":\"x\"\x7d Thanks."

/-- The brace-delimited substring of `specExampleText`. -/
def specExampleSub : String :=
  "\x7b\"slurredSpeech\":true,\"clarity\":55,\"fluency\":60,\"confidence\":70,\"possibleStrokeIndicators\":true,\"analysis\":\"x\"\x7d"

/-- Parse oracle of the worked example, modelling what `JSON.parse` does on the
brace-delimited substring. -/
def specExampleParse : List Char → Option ParsedObj :=
  fun cs => if cs = specExampleSub.toList then some specExampleObj else none

/-- Follows the claim's words: shoulder-imbalance contribution source, zero
when posture is absent. -/
def claimShoulder : Option PostureAnalysisProps → ℚ
  | none => 0
  | some p => p.shoulderImbalance

/-- Follows the claim's words: the slurred-speech term, zero when speech is
absent. -/
def claimSlurTerm : Option SpeechAnalysisProps → ℚ
  | none => 0
  | some sp => if sp.slurredSpeech then 0.3 else 0

/-- Follows the claim's words: the clarity value, with an absent input
contributing zero to the deficit term. -/
def claimClarity : Option SpeechAnalysisProps → ℚ
  | none => 100
  | some sp => sp.clarity.getD 100

/-- Follows the claim's words: the fluency value, with an absent input
contributing zero to the deficit term. -/
def claimFluency : Option SpeechAnalysisProps → ℚ
  | none => 100
  | some sp => sp.fluency.getD 100

/-- Follows the claim/spec formula (§4.1):
`clamp(asym + 0.3*shoulder + slurTerm + 0.15*(100-clarity)/100 +
0.15*(100-fluency)/100, 0, 1)`. -/
def claimFusionScore (f : FacialAsymmetryProps) (p : Option PostureAnalysisProps)
    (sp : Option SpeechAnalysisProps) : ℚ :=
  mathMin (mathMax (f.overallAsymmetry + 0.3 * claimShoulder p + claimSlurTerm sp
    + 0.15 * (100 - claimClarity sp) / 100 + 0.15 * (100 - claimFluency sp) / 100) 0) 1

/-- Numeric value of a stored timestamp in the C9 witness store (models
`new Date(...)` on numeric-epoch timestamps). -/
def dateValOfNum : JSValue → ℚ :=
  fun v => match v with
  | JSValue.num q => q
  | _ => 0

/-- A sample stored assessment with epoch timestamp `i` for the C9 witness. -/
def sampleAssessment (i : Nat) : AssessmentRec :=
  { id := "", asymmetryMetrics := some (JSValue.num 1),
    postureMetrics := some (JSValue.num 1), riskLevel := some (JSValue.str "low"),
    timestamp := JSValue.num i }

/-- C1: for every well-formed request to POST /analyze-speech with body
`{transcript, facialMetrics?}` the server responds with status 200 and body
`{analysis: SpeechMetrics}`, and never a non-2xx status: proved over the
spec-modelled route (the handler is absent from src/), whose body is the total
adapter `analyzeSpeech`, for every transcript, facial context, service outcome
and parse oracle. -/
theorem analyzeSpeechRoute_always_200 :
    ∀ (transcript : String) (fc : Option FacialCtx) (svc : ServiceOutcome)
      (parse : List Char → Option ParsedObj),
      (analyzeSpeechRoute transcript fc svc parse).status = 200 ∧
      (analyzeSpeechRoute transcript fc svc parse).status / 100 = 2 ∧
      (analyzeSpeechRoute transcript fc svc parse).analysis
        = analyzeSpeech transcript fc svc parse := by
  intro transcript fc svc parse
  refine ⟨rfl, ?_, rfl⟩
  show (200 : Nat) / 100 = 2
  decide

/-- C7: whenever the external generative-text service call throws during
`analyzeSpeech` on a non-empty transcript, the adapter returns the complete
hard-failure default record (all seven fields populated, with an analysis
string recommending consultation of a medical professional); being a total
function of its inputs, the adapter never raises to its caller. -/
theorem analyzeSpeech_throws_returns_default :
    (∀ (tr : String) (fc : Option FacialCtx) (parse : List Char → Option ParsedObj),
        trimList tr.toList ≠ [] →
        analyzeSpeech tr fc ServiceOutcome.throws parse = geminiErrorResult) ∧
    geminiErrorResult.analysis = JSValue.str
      "Unable to analyze speech due to a technical error. Please try again or consult a medical professional if you have concerns." ∧
    hasSubList "consult a medical professional".toList
      "Unable to analyze speech due to a technical error. Please try again or consult a medical professional if you have concerns.".toList
      = true := by
  refine ⟨?_, rfl, by decide⟩
  intro tr fc parse h
  have h2 : ¬ (tr.toList = [] ∨ trimList tr.toList = []) := by
    rintro (h1 | h1)
    · exact h (by rw [h1]; rfl)
    · exact h h1
  unfold analyzeSpeech
  rw [if_neg h2]

/-- Witness for C7 at the concrete transcript "hello there". -/
theorem analyzeSpeech_throws_returns_default_witness :
    analyzeSpeech "hello there" none ServiceOutcome.throws (fun _ => none)
      = geminiErrorResult :=
  analyzeSpeech_throws_returns_default.1 "hello there" none (fun _ => none) (by decide)

/-- C2 counterexample: starting from Recording with attempts = 0, after exactly
3 consecutive network-class recognition errors with no successful restart in
between, the session is NOT in the error state and the manual-entry fallback is
NOT enabled — the handler is still retrying with attempts = 3 (the guard is
`recognitionAttempts < MAX_RECOGNITION_ATTEMPTS` checked before the
increment, so the give-up branch is reached only on the fourth error). -/
theorem session_three_errors_still_retrying :
    (runSession initialRecordingState
        [RecEvent.networkError, RecEvent.networkError, RecEvent.networkError]).phase
      ≠ RecPhase.errored ∧
    (runSession initialRecordingState
        [RecEvent.networkError, RecEvent.networkError, RecEvent.networkError]).manualEntryShown
      = false ∧
    (runSession initialRecordingState
        [RecEvent.networkError, RecEvent.networkError, RecEvent.networkError])
      = { phase := RecPhase.retryWait, recognitionAttempts := 3, manualEntryShown := false } := by
  decide

/-- C2 amended: starting from Recording with attempts = 0, each network error
with attempts < 3 increments attempts and schedules a recognition restart after
the fixed 1000 ms delay; after 3 consecutive network errors (no successful
restart in between) the session is still in the retry-pending state with
attempts = 3 and manual entry not enabled; a 4th consecutive network error
transitions to the error state with the manual-entry fallback enabled; after 2
consecutive network errors followed by a successful restart the session is
Recording with attempts = 0 (hence at most 2). -/
theorem session_retry_behaviour :
    runSession initialRecordingState
        [RecEvent.networkError, RecEvent.networkError, RecEvent.networkError]
      = { phase := RecPhase.retryWait, recognitionAttempts := 3, manualEntryShown := false } ∧
    runSession initialRecordingState
        [RecEvent.networkError, RecEvent.networkError, RecEvent.networkError,
         RecEvent.networkError]
      = { phase := RecPhase.errored, recognitionAttempts := 3, manualEntryShown := true } ∧
    runSession initialRecordingState
        [RecEvent.networkError, RecEvent.networkError, RecEvent.startOk]
      = { phase := RecPhase.recording, recognitionAttempts := 0, manualEntryShown := false } ∧
    (runSession initialRecordingState
        [RecEvent.networkError, RecEvent.networkError, RecEvent.startOk]).recognitionAttempts
      ≤ 2 ∧
    (∀ s : SessionState, s.recognitionAttempts < MAX_RECOGNITION_ATTEMPTS →
      sessionStep s RecEvent.networkError =
        ({ s with phase := RecPhase.retryWait,
                  recognitionAttempts := s.recognitionAttempts + 1 },
         [SessionEffect.scheduleRestart 1000])) := by
  refine ⟨by decide, by decide, by decide, by decide, ?_⟩
  intro s h
  simp [sessionStep, h]

/-- Witness for C2 (amended) at the initial recording state. -/
theorem session_retry_behaviour_witness :
    sessionStep initialRecordingState RecEvent.networkError =
      ({ initialRecordingState with
           phase := RecPhase.retryWait,
           recognitionAttempts := initialRecordingState.recognitionAttempts + 1 },
       [SessionEffect.scheduleRestart 1000]) :=
  session_retry_behaviour.2.2.2.2 initialRecordingState (by decide)

/-- C4 counterexample: the onresult handler computes the transcript from the
current event only, so an interim-only callback arriving after a final one
overwrites the finalized text; on the event sequence final "hello" then
interim "wor" the code yields "wor" while the claimed
latest-final-wins-else-latest-interim policy yields "hello". -/
theorem onresult_interim_overwrites_final :
    transcriptAfter [[{ isFinal := true, transcriptText := "hello" }],
                     [{ isFinal := false, transcriptText := "wor" }]] = "wor" ∧
    claimPolicyTranscript [[{ isFinal := true, transcriptText := "hello" }],
                           [{ isFinal := false, transcriptText := "wor" }]] = "hello" ∧
    transcriptAfter [[{ isFinal := true, transcriptText := "hello" }],
                     [{ isFinal := false, transcriptText := "wor" }]]
      ≠ claimPolicyTranscript [[{ isFinal := true, transcriptText := "hello" }],
                               [{ isFinal := false, transcriptText := "wor" }]] := by
  decide

/-- C4 amended: every recognition result callback replaces the transcript and
never appends across callbacks — the new value does not depend on the previous
transcript; the transcript after any sequence of callbacks equals the value of
the last callback alone, namely that callback's concatenated final texts when
nonempty, else its concatenated interim texts (so a final result from an
earlier callback can be overwritten by a later interim-only callback). -/
theorem onresult_replacement_policy :
    (∀ (t t2 : String) (results : List RecResult),
        applyOnresult t results = applyOnresult t2 results) ∧
    (∀ (events : List (List RecResult)) (results : List RecResult),
        transcriptAfter (events ++ [results]) = onresultTranscript results) ∧
    (∀ results : List RecResult, finalJoin results ≠ "" →
        onresultTranscript results = finalJoin results) ∧
    (∀ results : List RecResult, finalJoin results = "" →
        onresultTranscript results = interimJoin results) := by
  refine ⟨fun t t2 results => rfl, ?_, ?_, ?_⟩
  · intro events results
    simp [transcriptAfter, List.foldl_append, applyOnresult]
  · intro results h
    simp [onresultTranscript, jsOrString, h]
  · intro results h
    simp [onresultTranscript, jsOrString, h]

/-- Witness for C4 (amended) at a single final-result callback. -/
theorem onresult_replacement_policy_witness :
    onresultTranscript [{ isFinal := true, transcriptText := "hi" }]
      = finalJoin [{ isFinal := true, transcriptText := "hi" }] :=
  onresult_replacement_policy.2.2.1 [{ isFinal := true, transcriptText := "hi" }] (by decide)

/-- C3 counterexample: the raw text contains a first brace and a last brace and
the enclosed substring parses to an object in which the key `clarity` is
present with value 0, yet the adapter returns the default 80 for `clarity`
(the strict tier reads each key with `||`, so a present-but-falsy value is
replaced by the default, contradicting "exactly the parsed value whenever the
key is present"). -/
theorem strict_tier_present_falsy_counterexample :
    firstIndexOfAux (Char.ofNat 123) strictCexText.toList = some 14 ∧
    lastIndexOfAux (Char.ofNat 125) strictCexText.toList = some 27 ∧
    strictCexParse (jsSubstring strictCexText.toList 14 28) = some strictCexObj ∧
    strictCexObj.clarity = some (JSValue.num 0) ∧
    (analyzeSpeech "hello" none (ServiceOutcome.returns strictCexText) strictCexParse).clarity
      = JSValue.num 80 ∧
    JSValue.num 80 ≠ JSValue.num 0 := by
  decide

/-- C3 amended: whenever the raw service text contains a first brace and a
last brace and the enclosed substring parses as an object, the adapter (on a
non-empty transcript) returns exactly the strict-tier formatting of the parsed
object; for each of the seven fields this is the parsed object's value whenever
the key is present with a truthy value, and the documented per-field default
when the key is absent OR present with a falsy value; each field depends only
on its own key, so one missing key does not change the value extracted for any
other key. -/
theorem strict_tier_field_extraction :
    ∀ (tr text : String) (fc : Option FacialCtx)
      (parse : List Char → Option ParsedObj) (p : ParsedObj) (i j : Nat)
      (r : SpeechMetricsJS),
      trimList tr.toList ≠ [] →
      firstIndexOfAux (Char.ofNat 123) text.toList = some i →
      lastIndexOfAux (Char.ofNat 125) text.toList = some j →
      parse (jsSubstring text.toList i (j + 1)) = some p →
      r = analyzeSpeech tr fc (ServiceOutcome.returns text) parse →
      (r = formatParsedResult p ∧
       r.slurredSpeech = (match p.slurredSpeech with
         | some v => if v.truthy then v else JSValue.bool false
         | none => JSValue.bool false) ∧
       r.speechCoherence = (match p.speechCoherence with
         | some v => if v.truthy then v else JSValue.num 0.8
         | none => JSValue.num 0.8) ∧
       r.possibleStrokeIndicators = (match p.possibleStrokeIndicators with
         | some v => if v.truthy then v else JSValue.bool false
         | none => JSValue.bool false) ∧
       r.confidence = (match p.confidence with
         | some v => if v.truthy then v else JSValue.num 50
         | none => JSValue.num 50) ∧
       r.clarity = (match p.clarity with
         | some v => if v.truthy then v else JSValue.num 80
         | none => JSValue.num 80) ∧
       r.fluency = (match p.fluency with
         | some v => if v.truthy then v else JSValue.num 80
         | none => JSValue.num 80) ∧
       r.analysis = (match p.analysis with
         | some v => if v.truthy then v else JSValue.str "Speech analysis completed."
         | none => JSValue.str "Speech analysis completed.") ∧
       (∀ q q2 : ParsedObj, q.slurredSpeech = q2.slurredSpeech →
         (formatParsedResult q).slurredSpeech = (formatParsedResult q2).slurredSpeech) ∧
       (∀ q q2 : ParsedObj, q.speechCoherence = q2.speechCoherence →
         (formatParsedResult q).speechCoherence = (formatParsedResult q2).speechCoherence) ∧
       (∀ q q2 : ParsedObj, q.possibleStrokeIndicators = q2.possibleStrokeIndicators →
         (formatParsedResult q).possibleStrokeIndicators
           = (formatParsedResult q2).possibleStrokeIndicators) ∧
       (∀ q q2 : ParsedObj, q.confidence = q2.confidence →
         (formatParsedResult q).confidence = (formatParsedResult q2).confidence) ∧
       (∀ q q2 : ParsedObj, q.clarity = q2.clarity →
         (formatParsedResult q).clarity = (formatParsedResult q2).clarity) ∧
       (∀ q q2 : ParsedObj, q.fluency = q2.fluency →
         (formatParsedResult q).fluency = (formatParsedResult q2).fluency) ∧
       (∀ q q2 : ParsedObj, q.analysis = q2.analysis →
         (formatParsedResult q).analysis = (formatParsedResult q2).analysis)) := by
  intro tr text fc parse p i j r htr h1 h2 h3 hr
  have hne : ¬ (tr.toList = [] ∨ trimList tr.toList = []) := by
    rintro (he | he)
    · exact htr (by rw [he]; rfl)
    · exact htr he
  have hroute : r = formatParsedResult p := by
    rw [hr]
    unfold analyzeSpeech
    rw [if_neg hne]
    simp only [h1, h2, h3]
  refine ⟨hroute, ?_, ?_, ?_, ?_, ?_, ?_, ?_,
    fun q q2 h => by simp only [formatParsedResult]; rw [h],
    fun q q2 h => by simp only [formatParsedResult]; rw [h],
    fun q q2 h => by simp only [formatParsedResult]; rw [h],
    fun q q2 h => by simp only [formatParsedResult]; rw [h],
    fun q q2 h => by simp only [formatParsedResult]; rw [h],
    fun q q2 h => by simp only [formatParsedResult]; rw [h],
    fun q q2 h => by simp only [formatParsedResult]; rw [h]⟩ <;>
  · rw [hroute]
    rfl

set_option maxRecDepth 16384 in
/-- Witness for C3 (amended) at the spec's worked example. -/
theorem strict_tier_field_extraction_witness :
    analyzeSpeech "test speech" none (ServiceOutcome.returns specExampleText) specExampleParse
      = formatParsedResult specExampleObj :=
  ((strict_tier_field_extraction "test speech" specExampleText none specExampleParse
      specExampleObj 20 130
      (analyzeSpeech "test speech" none (ServiceOutcome.returns specExampleText) specExampleParse)
      (by decide) (by decide) (by decide) (by decide) rfl).1)

/-- C8 counterexample: a request body in which all three required fields are
supplied, but `riskLevel` carries the empty string, is rejected with
400 "Missing required data" instead of the claimed 201 — the handler guards
with JS truthiness (`!riskLevel`), not with presence. -/
theorem post_assessments_supplied_but_falsy_counterexample :
    ({ asymmetryMetrics := some (JSValue.num 1), postureMetrics := some (JSValue.num 1),
       riskLevel := some (JSValue.str ""), timestamp := none } : AssessmentBody).riskLevel
      = some (JSValue.str "") ∧
    postAssessments []
        { asymmetryMetrics := some (JSValue.num 1), postureMetrics := some (JSValue.num 1),
          riskLevel := some (JSValue.str ""), timestamp := none } 7 "now"
      = (PostResult.badRequest "Missing required data", []) ∧
    statusOf (postAssessments []
        { asymmetryMetrics := some (JSValue.num 1), postureMetrics := some (JSValue.num 1),
          riskLevel := some (JSValue.str ""), timestamp := none } 7 "now").1
      = 400 := by
  decide

/-- C8 amended: POST /assessments returns 400 `{error: "Missing required
data"}` whenever any of `asymmetryMetrics`, `postureMetrics`, `riskLevel` is
absent; when all three are supplied with truthy values it returns 201
`{id, message}` with `id` derived from the capture time (`Date.now()`), and
the stored record's timestamp equals the supplied timestamp when that value is
truthy, and defaults to the current time when the field is omitted (or
supplied falsy). -/
theorem post_assessments_behaviour :
    (∀ (db : List AssessmentRec) (body : AssessmentBody) (nowMs : Nat) (nowISO : String),
        (body.asymmetryMetrics = none ∨ body.postureMetrics = none ∨ body.riskLevel = none) →
        postAssessments db body nowMs nowISO
          = (PostResult.badRequest "Missing required data", db) ∧
        statusOf (postAssessments db body nowMs nowISO).1 = 400) ∧
    (∀ (db : List AssessmentRec) (body : AssessmentBody) (nowMs : Nat) (nowISO : String),
        jsTruthyOpt body.asymmetryMetrics = true →
        jsTruthyOpt body.postureMetrics = true →
        jsTruthyOpt body.riskLevel = true →
        postAssessments db body nowMs nowISO
          = (PostResult.created (Nat.repr nowMs) "Assessment saved successfully",
             db ++ [{ id := Nat.repr nowMs,
                      asymmetryMetrics := body.asymmetryMetrics,
                      postureMetrics := body.postureMetrics,
                      riskLevel := body.riskLevel,
                      timestamp := match body.timestamp with
                        | some tv => if tv.truthy then tv else JSValue.str nowISO
                        | none => JSValue.str nowISO }]) ∧
        statusOf (postAssessments db body nowMs nowISO).1 = 201) := by
  constructor
  · intro db body nowMs nowISO h
    have hguard : (!jsTruthyOpt body.asymmetryMetrics || !jsTruthyOpt body.postureMetrics ||
        !jsTruthyOpt body.riskLevel) = true := by
      rcases h with h | h | h <;> simp [h, jsTruthyOpt]
    constructor
    · unfold postAssessments
      rw [if_pos hguard]
    · unfold postAssessments
      rw [if_pos hguard]
      rfl
  · intro db body nowMs nowISO h1 h2 h3
    have hguard : (!jsTruthyOpt body.asymmetryMetrics || !jsTruthyOpt body.postureMetrics ||
        !jsTruthyOpt body.riskLevel) = false := by
      simp [h1, h2, h3]
    constructor
    · unfold postAssessments
      rw [if_neg (by simp [hguard])]
      rfl
    · unfold postAssessments
      rw [if_neg (by simp [hguard])]
      rfl

/-- Witness for C8 (amended): a fully-supplied truthy body with no timestamp
is stored with the current time and answered 201. -/
theorem post_assessments_behaviour_witness :
    postAssessments []
        { asymmetryMetrics := some (JSValue.num 1), postureMetrics := some (JSValue.num 2),
          riskLevel := some (JSValue.str "low"), timestamp := none } 42 "2026-10-11T00:00:00Z"
      = (PostResult.created (Nat.repr 42) "Assessment saved successfully",
         [{ id := Nat.repr 42,
            asymmetryMetrics := some (JSValue.num 1),
            postureMetrics := some (JSValue.num 2),
            riskLevel := some (JSValue.str "low"),
            timestamp := JSValue.str "2026-10-11T00:00:00Z" }]) :=
  ((post_assessments_behaviour.2 []
      { asymmetryMetrics := some (JSValue.num 1), postureMetrics := some (JSValue.num 2),
        riskLevel := some (JSValue.str "low"), timestamp := none } 42 "2026-10-11T00:00:00Z"
      (by decide) (by decide) (by decide)).1)

/-- C10: POST /assessments rejects with 400 `{error: "Missing required data"}`
not only when a required field is absent, but whenever any of the three is
present with a falsy value — empty string, 0, false, or null — so a request
carrying, e.g., `riskLevel: ""` is rejected even though the field is supplied. -/
theorem post_assessments_rejects_falsy :
    (∀ (db : List AssessmentRec) (body : AssessmentBody) (nowMs : Nat) (nowISO : String),
        ((∃ v, body.asymmetryMetrics = some v ∧ v.truthy = false) ∨
         (∃ v, body.postureMetrics = some v ∧ v.truthy = false) ∨
         (∃ v, body.riskLevel = some v ∧ v.truthy = false)) →
        postAssessments db body nowMs nowISO
          = (PostResult.badRequest "Missing required data", db) ∧
        statusOf (postAssessments db body nowMs nowISO).1 = 400) ∧
    JSValue.truthy (JSValue.str "") = false ∧
    JSValue.truthy (JSValue.num 0) = false ∧
    JSValue.truthy (JSValue.bool false) = false ∧
    JSValue.truthy JSValue.null = false := by
  refine ⟨?_, by decide, by decide, by decide, by decide⟩
  intro db body nowMs nowISO h
  have hguard : (!jsTruthyOpt body.asymmetryMetrics || !jsTruthyOpt body.postureMetrics ||
      !jsTruthyOpt body.riskLevel) = true := by
    rcases h with ⟨v, hv, hf⟩ | ⟨v, hv, hf⟩ | ⟨v, hv, hf⟩ <;> simp [hv, hf, jsTruthyOpt]
  constructor
  · unfold postAssessments
    rw [if_pos hguard]
  · unfold postAssessments
    rw [if_pos hguard]
    rfl

/-- Witness for C10: a body whose `riskLevel` is the supplied empty string is
rejected with 400. -/
theorem post_assessments_rejects_falsy_witness :
    postAssessments []
        { asymmetryMetrics := some (JSValue.num 2), postureMetrics := some (JSValue.num 3),
          riskLevel := some (JSValue.str ""), timestamp := some (JSValue.str "T") } 9 "iso"
      = (PostResult.badRequest "Missing required data", []) :=
  ((post_assessments_rejects_falsy.1 []
      { asymmetryMetrics := some (JSValue.num 2), postureMetrics := some (JSValue.num 3),
        riskLevel := some (JSValue.str ""), timestamp := some (JSValue.str "T") } 9 "iso"
      (Or.inr (Or.inr ⟨JSValue.str "", rfl, by decide⟩))).1)

/-- Clamping to the unit interval yields a value in the unit interval. -/
theorem clamp01_mem (x : ℚ) :
    0 ≤ mathMin (mathMax x 0) 1 ∧ mathMin (mathMax x 0) 1 ≤ 1 := by
  unfold mathMin mathMax
  by_cases h : x ≤ 0
  · rw [if_pos h, if_pos (by norm_num : (0:ℚ) ≤ 1)]
    norm_num
  · rw [if_neg h]
    by_cases h2 : x ≤ 1
    · rw [if_pos h2]
      exact ⟨by linarith [not_le.mp h], h2⟩
    · rw [if_neg h2]
      norm_num

/-- C5: for every facial input and optional posture and speech inputs, the
component's computed score equals
`clamp(overallAsymmetry + 0.3*shoulderImbalance + (0.3 if slurredSpeech) +
0.15*(100-clarity)/100 + 0.15*(100-fluency)/100, 0, 1)` with absent optional
inputs contributing zero; the score always lies in [0, 1]; and the worked
example (asymmetry 0.1, shoulder 0.2, no slurring, clarity 90, fluency 90)
yields exactly 0.19 with level low. -/
theorem calculate_overall_risk_formula :
    (∀ (f : FacialAsymmetryProps) (p : Option PostureAnalysisProps)
       (sp : Option SpeechAnalysisProps),
       (calculateOverallRisk f p sp).1 = claimFusionScore f p sp ∧
       0 ≤ (calculateOverallRisk f p sp).1 ∧ (calculateOverallRisk f p sp).1 ≤ 1) ∧
    calculateOverallRisk { overallAsymmetry := 0.1 }
        (some { shoulderImbalance := 0.2, armDrop := 0 })
        (some { slurredSpeech := false, clarity := some 90, fluency := some 90 })
      = (0.19, RiskLevel.low) := by
  have heq : ∀ (f : FacialAsymmetryProps) (p : Option PostureAnalysisProps)
      (sp : Option SpeechAnalysisProps),
      (calculateOverallRisk f p sp).1 = claimFusionScore f p sp := by
    intro f p sp
    unfold calculateOverallRisk claimFusionScore claimShoulder claimSlurTerm
      claimClarity claimFluency
    rcases p with _ | p <;> rcases sp with _ | ⟨sl, c, fl⟩ <;> simp only []
    · by_cases h : f.overallAsymmetry = 0 <;> simp [h]
    · rcases c with _ | c <;> rcases fl with _ | fl <;> rcases sl <;>
        by_cases h : f.overallAsymmetry = 0 <;> simp [h] <;> ring_nf
    · by_cases h : f.overallAsymmetry = 0 <;> by_cases h2 : p.shoulderImbalance = 0 <;>
        simp [h, h2] <;> ring_nf
    · rcases c with _ | c <;> rcases fl with _ | fl <;> rcases sl <;>
        by_cases h : f.overallAsymmetry = 0 <;> by_cases h2 : p.shoulderImbalance = 0 <;>
        simp [h, h2] <;> ring_nf
  refine ⟨fun f p sp => ⟨heq f p sp, ?_, ?_⟩, ?_⟩
  · rw [heq f p sp]; exact (clamp01_mem _).1
  · rw [heq f p sp]; exact (clamp01_mem _).2
  · norm_num [calculateOverallRisk, riskLevelOfScore, mathMin, mathMax]

/-- C6: the risk level is derived from the clamped score with exclusive-lower
thresholds: high exactly when score > 0.7, medium exactly when
0.3 < score <= 0.7, low exactly when score <= 0.3; the component's level is
the level of its clamped score; and 0.3 maps to low, 0.30001 to medium, 0.7 to
medium, 0.70001 to high. -/
theorem risk_level_thresholds :
    (∀ s : ℚ,
      (riskLevelOfScore s = RiskLevel.high ↔ 0.7 < s) ∧
      (riskLevelOfScore s = RiskLevel.medium ↔ 0.3 < s ∧ s ≤ 0.7) ∧
      (riskLevelOfScore s = RiskLevel.low ↔ s ≤ 0.3)) ∧
    (∀ (f : FacialAsymmetryProps) (p : Option PostureAnalysisProps)
       (sp : Option SpeechAnalysisProps),
       (calculateOverallRisk f p sp).2
         = riskLevelOfScore (calculateOverallRisk f p sp).1) ∧
    riskLevelOfScore 0.3 = RiskLevel.low ∧
    riskLevelOfScore 0.30001 = RiskLevel.medium ∧
    riskLevelOfScore 0.7 = RiskLevel.medium ∧
    riskLevelOfScore 0.70001 = RiskLevel.high := by
  refine ⟨?_, fun f p sp => rfl, ?_, ?_, ?_, ?_⟩
  · intro s
    unfold riskLevelOfScore
    by_cases h1 : (0.7 : ℚ) < s
    · rw [if_pos h1]
      exact ⟨⟨fun _ => h1, fun _ => rfl⟩,
        ⟨fun hc => absurd hc (by decide),
         fun hc => absurd h1 (not_lt.mpr hc.2)⟩,
        ⟨fun hc => absurd hc (by decide),
         fun hle => absurd h1 (not_lt.mpr (le_trans hle (by norm_num)))⟩⟩
    · rw [if_neg h1]
      by_cases h2 : (0.3 : ℚ) < s
      · rw [if_pos h2]
        exact ⟨⟨fun hc => absurd hc (by decide), fun hlt => absurd hlt h1⟩,
          ⟨fun _ => ⟨h2, not_lt.mp h1⟩, fun _ => rfl⟩,
          ⟨fun hc => absurd hc (by decide), fun hle => absurd h2 (not_lt.mpr hle)⟩⟩
      · rw [if_neg h2]
        exact ⟨⟨fun hc => absurd hc (by decide), fun hlt => absurd hlt h1⟩,
          ⟨fun hc => absurd hc (by decide), fun hc => absurd hc.1 h2⟩,
          ⟨fun _ => not_lt.mp h2, fun _ => rfl⟩⟩
  · unfold riskLevelOfScore
    rw [if_neg (by norm_num), if_neg (by norm_num)]
  · unfold riskLevelOfScore
    rw [if_neg (by norm_num), if_pos (by norm_num)]
  · unfold riskLevelOfScore
    rw [if_neg (by norm_num), if_pos (by norm_num)]
  · unfold riskLevelOfScore
    rw [if_pos (by norm_num)]

/-- Membership in the descending insertion. -/
theorem insertByKeyDesc_mem {α : Type} (key : α → ℚ) (x z : α) (l : List α) :
    z ∈ insertByKeyDesc key x l ↔ z = x ∨ z ∈ l := by
  induction l with
  | nil => simp [insertByKeyDesc]
  | cons y ys ih =>
      unfold insertByKeyDesc
      split
      · simp
      · simp [ih]
        tauto

/-- Descending insertion preserves descending order. -/
theorem insertByKeyDesc_pairwise {α : Type} (key : α → ℚ) (x : α) (l : List α)
    (h : l.Pairwise (fun a b => key b ≤ key a)) :
    (insertByKeyDesc key x l).Pairwise (fun a b => key b ≤ key a) := by
  induction l with
  | nil => simp [insertByKeyDesc]
  | cons y ys ih =>
      unfold insertByKeyDesc
      split
      · rename_i hyx
        refine List.Pairwise.cons ?_ h
        intro z hz
        rcases List.mem_cons.mp hz with hz | hz
        · subst hz; exact hyx
        · exact le_trans (List.rel_of_pairwise_cons h hz) hyx
      · rename_i hyx
        refine List.Pairwise.cons ?_ (ih h.of_cons)
        intro z hz
        rcases (insertByKeyDesc_mem key x z ys).mp hz with hz | hz
        · subst hz
          exact le_of_lt (lt_of_not_le hyx)
        · exact List.rel_of_pairwise_cons h hz

/-- The descending sort is descending. -/
theorem sortByKeyDesc_pairwise {α : Type} (key : α → ℚ) (l : List α) :
    (sortByKeyDesc key l).Pairwise (fun a b => key b ≤ key a) := by
  induction l with
  | nil => simp [sortByKeyDesc]
  | cons x xs ih => exact insertByKeyDesc_pairwise key x _ ih

/-- Inserting an element whose key is below every key of the list appends it. -/
theorem insertByKeyDesc_append {α : Type} (key : α → ℚ) (x : α) (l : List α)
    (h : ∀ y ∈ l, ¬ key y ≤ key x) :
    insertByKeyDesc key x l = l ++ [x] := by
  induction l with
  | nil => rfl
  | cons y ys ih =>
      unfold insertByKeyDesc
      rw [if_neg (h y (List.mem_cons_self y ys))]
      rw [ih (fun z hz => h z (List.mem_cons_of_mem y hz))]
      rfl

/-- Sorting a strictly ascending list descending reverses it. -/
theorem sortByKeyDesc_of_strict {α : Type} (key : α → ℚ) (l : List α)
    (h : l.Pairwise (fun a b => key a < key b)) :
    sortByKeyDesc key l = l.reverse := by
  induction l with
  | nil => rfl
  | cons x xs ih =>
      unfold sortByKeyDesc
      rw [ih h.of_cons]
      have hmem : ∀ y ∈ xs.reverse, ¬ key y ≤ key x := by
        intro y hy
        have hxy := List.rel_of_pairwise_cons h (List.mem_reverse.mp hy)
        exact not_le.mpr hxy
      rw [insertByKeyDesc_append key x xs.reverse hmem, List.reverse_cons]

/-- Taking the length of the left part of an append returns the left part. -/
theorem take_length_append {α : Type} (l1 l2 : List α) :
    (l1 ++ l2).take l1.length = l1 := by
  induction l1 with
  | nil => rfl
  | cons x xs ih => simp [ih]

/-- C9: GET /assessments/recent always returns at most 10 records, sorted by
timestamp descending; and on a store of 15 records inserted with strictly
increasing timestamps it returns exactly the last 10 inserted, newest first
(the last 10 in reverse insertion order). -/
theorem recent_assessments_sorted_top10 :
    (∀ (db : List AssessmentRec) (dateVal : JSValue → ℚ),
        (getRecentAssessments db dateVal).length ≤ 10 ∧
        (getRecentAssessments db dateVal).Pairwise
          (fun a b => dateVal b.timestamp ≤ dateVal a.timestamp)) ∧
    (∀ (db : List AssessmentRec) (dateVal : JSValue → ℚ),
        db.length = 15 →
        db.Pairwise (fun a b => dateVal a.timestamp < dateVal b.timestamp) →
        getRecentAssessments db dateVal = (db.drop 5).reverse ∧
        (getRecentAssessments db dateVal).length = 10) := by
  constructor
  · intro db dateVal
    constructor
    · unfold getRecentAssessments
      rw [List.length_take]
      exact min_le_left _ _
    · unfold getRecentAssessments
      exact (sortByKeyDesc_pairwise (fun a => dateVal a.timestamp) db).sublist
        (List.take_sublist _ _)
  · intro db dateVal h15 hp
    have hmain : getRecentAssessments db dateVal = (db.drop 5).reverse := by
      unfold getRecentAssessments
      rw [sortByKeyDesc_of_strict (fun a => dateVal a.timestamp) db hp]
      have hlen : (db.drop 5).reverse.length = 10 := by
        rw [List.length_reverse, List.length_drop, h15]
      calc db.reverse.take 10
          = ((db.take 5 ++ db.drop 5).reverse).take 10 := by rw [List.take_append_drop]
        _ = ((db.drop 5).reverse ++ (db.take 5).reverse).take 10 := by
              rw [List.reverse_append]
        _ = (db.drop 5).reverse := by
              rw [← hlen, take_length_append]
    refine ⟨hmain, ?_⟩
    rw [hmain, List.length_reverse, List.length_drop, h15]

/-- Witness for C9 on a concrete store of 15 assessments with strictly
increasing timestamps 0..14. -/
theorem recent_assessments_sorted_top10_witness :
    getRecentAssessments ((List.range 15).map sampleAssessment) dateValOfNum
      = ((((List.range 15).map sampleAssessment)).drop 5).reverse :=
  ((recent_assessments_sorted_top10.2 ((List.range 15).map sampleAssessment) dateValOfNum
      (by decide) (by decide)).1)
